import Mathlib

/-!
Verification of the raw-data validation subsystem of `vivarium_inputs`
(`src/vivarium_inputs/validation/raw.py`), as a shallow embedding.

Tables are modelled as lists of rows; a value cell is `Option ℚ`, with
`none` standing for a pandas `NaN` (missing value).  Python `set`
operations on id columns are modelled by membership-insensitive list
predicates (`pySubset`, `pySetLt`, ...), mirroring the `<`/`>`/`==`
operators the source applies to `set(...)` values.  Checks that can only
raise are embedded as `Except VError Unit`; checks that can both warn and
raise are embedded as `PyResult`, recording the warnings emitted before
the first raised exception (if any).
-/

deriving instance DecidableEq for Except

namespace VivariumInputs

/-- The error taxonomy of `vivarium_inputs.globals` as used by
`validation/raw.py`, plus `pyValueError` for exceptions coming from the
Python runtime itself (outside the documented taxonomy). -/
inductive VError where
  | dataAbnormal (msg : String)
  | dataDoesNotExist (msg : String)
  | invalidQuery (msg : String)
  | pyValueError (msg : String)
  deriving DecidableEq, Repr

/-- Outcome of a check that may emit warnings before (possibly) raising:
`warnings` lists the `warnings.warn` calls executed, in order, before the
function either returned (`error = none`) or raised (`error = some e`). -/
structure PyResult where
  warnings : List String
  error : Option VError
  deriving DecidableEq, Repr

/-- Python `set(a).issubset(set(b))` on list-encoded collections. -/
def pySubset {α : Type} [BEq α] (a b : List α) : Bool :=
  a.all (fun x => b.contains x)

/-- Python `set(a) < set(b)` (strict subset). -/
def pySetLt {α : Type} [BEq α] (a b : List α) : Bool :=
  pySubset a b && !(pySubset b a)

/-- Python `set(a) == set(b)`. -/
def pySetEq {α : Type} [BEq α] (a b : List α) : Bool :=
  pySubset a b && pySubset b a

/-- `pandas.unique` / iteration order of a freshly built set of ints:
distinct elements in order of first appearance. -/
def pdUnique {α : Type} [DecidableEq α] (l : List α) : List α :=
  l.foldl (fun acc a => if a ∈ acc then acc else acc ++ [a]) []

theorem mem_foldl_pdUnique {α : Type} [DecidableEq α] (l : List α) (acc : List α) (x : α) :
    x ∈ l.foldl (fun acc a => if a ∈ acc then acc else acc ++ [a]) acc ↔ x ∈ acc ∨ x ∈ l := by
  induction l generalizing acc with
  | nil => simp
  | cons a t ih =>
    by_cases h : a ∈ acc
    · simp only [List.foldl_cons, if_pos h, ih, List.mem_cons]
      constructor
      · rintro (hx | hx)
        · exact Or.inl hx
        · exact Or.inr (Or.inr hx)
      · rintro (hx | hx | hx)
        · exact Or.inl hx
        · exact Or.inl (hx ▸ h)
        · exact Or.inr hx
    · simp only [List.foldl_cons, if_neg h, ih, List.mem_append, List.mem_singleton,
        List.mem_cons]
      tauto

theorem mem_pdUnique {α : Type} [DecidableEq α] (l : List α) (x : α) :
    x ∈ pdUnique l ↔ x ∈ l := by
  simp [pdUnique, mem_foldl_pdUnique]

theorem nodup_foldl_pdUnique {α : Type} [DecidableEq α] (l : List α) (acc : List α)
    (h : acc.Nodup) :
    (l.foldl (fun acc a => if a ∈ acc then acc else acc ++ [a]) acc).Nodup := by
  induction l generalizing acc with
  | nil => simpa using h
  | cons a t ih =>
    by_cases ha : a ∈ acc
    · simpa [List.foldl_cons, if_pos ha] using ih acc h
    · refine ?_
      have hacc : (acc ++ [a]).Nodup := by
        simp [List.nodup_append, h, ha]
      simpa [List.foldl_cons, if_neg ha] using ih (acc ++ [a]) hacc

theorem nodup_pdUnique {α : Type} [DecidableEq α] (l : List α) : (pdUnique l).Nodup :=
  nodup_foldl_pdUnique l [] List.nodup_nil

/-- Embeds `check_columns(expected_cols, existing_cols)`
(validation/raw.py, lines 1658-1677): raises when the existing column set
is a strict subset of the expected set ("missing columns") or a strict
superset ("extra columns"), mirroring the `<` / `>` set comparisons. -/
def check_columns (expected_cols existing_cols : List String) : Except VError Unit :=
  if pySetLt existing_cols expected_cols then
    .error (.dataAbnormal "Data is missing columns.")
  else if pySetLt expected_cols existing_cols then
    .error (.dataAbnormal "Data returned extra columns.")
  else
    .ok ()

/-- C4: `check_columns(expected, actual)` is claimed to raise
`DataAbnormalError` whenever `actual` is missing any expected column or
contains any column not in `expected`.  The code compares the sets only
with `<` and `>`, so an incomparable pair of column sets passes silently:
with `expected = [a, b]` and `actual = [a, c]` the column `b` is missing
and `c` is extra, yet the check returns normally — contradicting the
function's own docstring ("Raises ... If `expected_cols` does not match
`existing_cols`"). -/
theorem check_columns_incomparable_passes :
    check_columns ["a", "b"] ["a", "c"] = .ok () ∧
      "b" ∉ ["a", "c"] ∧ "c" ∉ ["a", "b"] := by
  decide

/-- The three temporal policies accepted by `check_years`. -/
inductive YearType where
  | annual
  | binned
  | either
  deriving DecidableEq, Repr

/-- Python `min` over a nonempty int collection (0 on the empty list,
where the source would raise `ValueError`). -/
def listMin (l : List ℕ) : ℕ :=
  match l with
  | [] => 0
  | a :: t => t.foldl Nat.min a

/-- Python `max` over a nonempty int collection (0 on the empty list,
where the source would raise `ValueError`). -/
def listMax (l : List ℕ) : ℕ :=
  match l with
  | [] => 0
  | a :: t => t.foldl Nat.max a

/-- `set(range(min(estimation_years), max(estimation_years) + 1))`. -/
def annualYears (estimation_years : List ℕ) : List ℕ :=
  List.range' (listMin estimation_years)
    (listMax estimation_years + 1 - listMin estimation_years)

/-- Embeds `check_years(data, year_type, estimation_years)`
(validation/raw.py, lines 1587-1621), with `data_years` standing for
`set(data.year_id.unique())`.  The annual branch raises only when the
data years are a strict subset (`<`) of the full inclusive range; the
binned branch raises only on strict subset or strict superset of the
estimation years; the either branch passes when the data years equal the
estimation years or contain the full annual range. -/
def check_years (year_type : YearType) (data_years estimation_years : List ℕ) :
    Except VError Unit :=
  let ay := annualYears estimation_years
  match year_type with
  | .annual =>
    if pySetLt data_years ay then .error (.dataAbnormal "Data has missing years.")
    else .ok ()
  | .binned =>
    if pySetLt data_years estimation_years then
      .error (.dataAbnormal "Data has missing years.")
    else if pySetLt estimation_years data_years then
      .error (.dataAbnormal "Data has extra years.")
    else .ok ()
  | .either =>
    if pySetEq data_years estimation_years || pySubset ay data_years then .ok ()
    else .error (.dataAbnormal
      "Data year range is neither annual or appropriately binned with the expected year range.")

/-- C6: `check_years` with policy `annual` is claimed to raise if and only
if some year in the inclusive range from `min(estimation_years)` to
`max(estimation_years)` is absent from the data.  The code instead tests
`data_years < annual_estimation_years` (strict subset), so data that is
missing an expected year while also containing a year outside the range
passes: with estimation years 1990 and 1992 and data years 1990 and 2005,
the expected year 1991 is absent yet no error is raised — contradicting
the function's own docstring ("Raises ... any expected years are not
found in data"). -/
theorem check_years_annual_missing_year_passes :
    check_years .annual [1990, 2005] [1990, 1992] = .ok () ∧
      1991 ∈ annualYears [1990, 1992] ∧ 1991 ∉ [1990, 2005] := by
  decide

/-- A value cell of a raw data table: `none` models a pandas `NaN`
(missing value).  Infinite float values have no counterpart in `ℚ`, so
`np.isinf` is `False` on every representable table. -/
abbrev Cell := Option ℚ

/-- A row of a raw data table, carrying the identifier columns used by
the restriction checks and the value (draw) columns. -/
structure DRow where
  sex_id : ℕ
  age_group_id : ℕ
  values : List Cell
  deriving DecidableEq, Repr

/-- All value cells of a table (`data[value_columns]` flattened). -/
def cellsOf (data : List DRow) : List Cell :=
  (data.map DRow.values).flatten

/-- Embeds `check_data_exist(data, zeros_missing, value_columns, error=False)`
(validation/raw.py, lines 1680-1716): `true` iff the table is nonempty, no
value cell is null, and — when `zeros_missing` — not every value cell is
zero.  The `np.isinf` clause of the source is identically false here
because `ℚ` has no infinities. -/
def check_data_exist (data : List DRow) (zeros_missing : Bool) : Bool :=
  !(data.isEmpty || (cellsOf data).any (fun c => c.isNone)
    || (zeros_missing && (cellsOf data).all (fun c => c == some 0)))

/-- Modelled from the spec: the GBD sex id codes of
`vivarium_inputs.globals.SEXES` (globals.py is not under src/); the spec
fixes only that the three codes male, female, combined are distinct. -/
def SEXES_Male : ℕ := 1

/-- Modelled from the spec: the female GBD sex id code (see `SEXES_Male`). -/
def SEXES_Female : ℕ := 2

/-- Modelled from the spec: the combined GBD sex id code (see `SEXES_Male`). -/
def SEXES_Combined : ℕ := 3

/-- `data.sex_id` as a column. -/
def sexSet (data : List DRow) : List ℕ :=
  data.map DRow.sex_id

/-- Embeds `check_sex_restrictions(data, male_only, female_only, value_columns)`
(validation/raw.py, lines 1881-1939).  Each restriction branch raises when
the restricted sex has no non-missing, non-zero values, and only warns
when other sexes carry non-zero values; with no restriction, both split
sexes (or the combined sex) must have non-missing, non-zero values. -/
def check_sex_restrictions (data : List DRow) (male_only female_only : Bool) : PyResult :=
  if male_only && !check_data_exist (data.filter fun r => r.sex_id == SEXES_Male) true then
    ⟨[], some (.dataAbnormal
      "Data is restricted to male only, but is missing data values for males.")⟩
  else
    let w1 : List String :=
      if male_only && (!pySetEq (sexSet data) [SEXES_Male]
          && check_data_exist (data.filter fun r => r.sex_id != SEXES_Male) true) then
        ["Data is restricted to male only, but contains non-male sex ids for which data values are not all 0."]
      else []
    if female_only && !check_data_exist (data.filter fun r => r.sex_id == SEXES_Female) true then
      ⟨w1, some (.dataAbnormal
        "Data is restricted to female only, but is missing data values for females.")⟩
    else
      let w2 : List String :=
        if female_only && (!pySetEq (sexSet data) [SEXES_Female]
            && check_data_exist (data.filter fun r => r.sex_id != SEXES_Female) true) then
          ["Data is restricted to female only, but contains non-female sex ids for which data values are not all 0."]
        else []
      let ws := w1 ++ w2
      if !male_only && !female_only then
        if pySubset [SEXES_Male, SEXES_Female] (sexSet data) then
          if !check_data_exist (data.filter fun r => r.sex_id == SEXES_Male) true
              || !check_data_exist (data.filter fun r => r.sex_id == SEXES_Female) true then
            ⟨ws, some (.dataAbnormal
              "Data has no sex restrictions, but does not contain non-zero values for both males and females.")⟩
          else ⟨ws, none⟩
        else
          if !check_data_exist (data.filter fun r => r.sex_id == SEXES_Combined) true then
            ⟨ws, some (.dataAbnormal
              "Data has no sex restrictions, but does not contain non-zero values for both males and females.")⟩
          else ⟨ws, none⟩
      else ⟨ws, none⟩

/-- Spec-level reading of `check_data_exist(rows, zeros_missing=True)` on
the rows selected by `p`: some selected row exists, no selected row has a
missing cell, and some selected row has a non-zero cell. -/
def hasRealData (data : List DRow) (p : DRow → Bool) : Prop :=
  (∃ r ∈ data, p r = true)
    ∧ (∀ r ∈ data, p r = true → ∀ c ∈ r.values, c ≠ none)
    ∧ (∃ r ∈ data, p r = true ∧ ∃ c ∈ r.values, c ≠ some 0)

theorem check_data_exist_true_iff (d : List DRow) :
    check_data_exist d true = true ↔
      (d ≠ [] ∧ (∀ r ∈ d, ∀ c ∈ r.values, c ≠ none)
        ∧ ∃ r ∈ d, ∃ c ∈ r.values, c ≠ some 0) := by
  unfold check_data_exist cellsOf
  simp [List.isEmpty_iff, not_or, List.any_eq_true, List.all_eq_true,
    Option.isNone_iff_eq_none, List.mem_flatten]
  constructor
  · rintro ⟨⟨h1, h2⟩, h3⟩
    exact ⟨h1, fun r hr c hc hcn => h2 r hr (hcn ▸ hc), h3⟩
  · rintro ⟨h1, h2, h3⟩
    exact ⟨⟨h1, fun r hr hn => h2 r hr none hn rfl⟩, h3⟩

theorem check_data_exist_filter_iff (data : List DRow) (p : DRow → Bool) :
    check_data_exist (data.filter p) true = true ↔ hasRealData data p := by
  rw [check_data_exist_true_iff, hasRealData]
  constructor
  · rintro ⟨hne, hnull, r, hr, hrest⟩
    rw [List.mem_filter] at hr
    refine ⟨?_, ?_, r, hr.1, hr.2, hrest⟩
    · rcases List.exists_mem_of_ne_nil _ hne with ⟨r0, hr0⟩
      rw [List.mem_filter] at hr0
      exact ⟨r0, hr0.1, hr0.2⟩
    · intro r2 hr2 hp2
      exact hnull r2 (List.mem_filter.mpr ⟨hr2, hp2⟩)
  · rintro ⟨⟨r0, hr0, hp0⟩, hnull, r, hr, hp, hrest⟩
    refine ⟨?_, ?_, r, List.mem_filter.mpr ⟨hr, hp⟩, hrest⟩
    · exact List.ne_nil_of_mem (List.mem_filter.mpr ⟨hr0, hp0⟩)
    · intro r2 hr2
      rw [List.mem_filter] at hr2
      exact hnull r2 hr2.1 hr2.2

/-- A concrete male-only table whose female row carries a non-zero value:
one male row and one female row, each with value 1. -/
def sexRestrictionExample : List DRow :=
  [⟨SEXES_Male, 10, [some 1]⟩, ⟨SEXES_Female, 10, [some 1]⟩]

/-- C1 counterexample: with `male_only=True`, a non-male row carrying a
non-zero value does not make `check_sex_restrictions` raise
`DataAbnormalError` — the source only calls `warnings.warn` in that case
(validation/raw.py, lines 1910-1914), so the claimed raise does not
happen at this input. -/
theorem check_sex_restrictions_nonmale_nonzero_only_warns :
    (∃ r ∈ sexRestrictionExample, r.sex_id ≠ SEXES_Male ∧ some (1 : ℚ) ∈ r.values)
      ∧ (check_sex_restrictions sexRestrictionExample true false).error = none
      ∧ (check_sex_restrictions sexRestrictionExample true false).warnings ≠ [] := by
  decide

/-- C1 amended: for `male_only=True` (symmetrically `female_only=True`),
`check_sex_restrictions` raises `DataAbnormalError` exactly when the rows
of the restricted sex have no non-missing, non-zero values; a non-male
(resp. non-female) row with a non-zero value only produces a warning, and
all-zero non-restricted rows pass silently. -/
theorem check_sex_restrictions_restricted_spec (data : List DRow) :
    ((∃ m, (check_sex_restrictions data true false).error = some (.dataAbnormal m)) ↔
        ¬ hasRealData data (fun r => r.sex_id == SEXES_Male))
      ∧ ((check_sex_restrictions data true false).warnings ≠ [] ↔
        (hasRealData data (fun r => r.sex_id == SEXES_Male)
          ∧ pySetEq (sexSet data) [SEXES_Male] = false
          ∧ hasRealData data (fun r => r.sex_id != SEXES_Male)))
      ∧ ((∃ m, (check_sex_restrictions data false true).error = some (.dataAbnormal m)) ↔
        ¬ hasRealData data (fun r => r.sex_id == SEXES_Female))
      ∧ ((check_sex_restrictions data false true).warnings ≠ [] ↔
        (hasRealData data (fun r => r.sex_id == SEXES_Female)
          ∧ pySetEq (sexSet data) [SEXES_Female] = false
          ∧ hasRealData data (fun r => r.sex_id != SEXES_Female))) := by
  have hm := check_data_exist_filter_iff data (fun r => r.sex_id == SEXES_Male)
  have hnm := check_data_exist_filter_iff data (fun r => r.sex_id != SEXES_Male)
  have hf := check_data_exist_filter_iff data (fun r => r.sex_id == SEXES_Female)
  have hnf := check_data_exist_filter_iff data (fun r => r.sex_id != SEXES_Female)
  refine ⟨?_, ?_, ?_, ?_⟩
  · rw [← hm]
    unfold check_sex_restrictions
    cases hcm : check_data_exist (data.filter fun r => r.sex_id == SEXES_Male) true <;>
      simp [hcm]
  · rw [← hm, ← hnm]
    unfold check_sex_restrictions
    cases hcm : check_data_exist (data.filter fun r => r.sex_id == SEXES_Male) true <;>
      cases hse : pySetEq (sexSet data) [SEXES_Male] <;>
        cases hcn : check_data_exist (data.filter fun r => r.sex_id != SEXES_Male) true <;>
          simp [hcm, hse, hcn]
  · rw [← hf]
    unfold check_sex_restrictions
    cases hcf : check_data_exist (data.filter fun r => r.sex_id == SEXES_Female) true <;>
      simp [hcf]
  · rw [← hf, ← hnf]
    unfold check_sex_restrictions
    cases hcf : check_data_exist (data.filter fun r => r.sex_id == SEXES_Female) true <;>
      cases hse : pySetEq (sexSet data) [SEXES_Female] <;>
        cases hcn : check_data_exist (data.filter fun r => r.sex_id != SEXES_Female) true <;>
          simp [hcf, hse, hcn]

/-- Modelled from the spec: `get_restriction_age_ids(start_id, end_id)` of
`vivarium_inputs/utilities.py` (module not under src/).  Given the
canonical GBD age-group ordering, it returns every age-group id in that
ordering from the start id to the end id inclusive, and the empty
sequence when the restriction bounds are absent. -/
def get_restriction_age_ids (ageOrder : List ℕ) (s0 e0 : Option ℕ) : List ℕ :=
  match s0, e0 with
  | some s, some e =>
    let tail := ageOrder.dropWhile (fun a => a != s)
    (tail.takeWhile (fun a => a != e)) ++ (if e ∈ tail then [e] else [])
  | _, _ => []

/-- The hard-error / warning message of the final check of
`check_age_restrictions`. -/
def allMissingMsg : String :=
  "Data is missing for all age groups within restriction range."

/-- Embeds `check_age_restrictions(data, age_group_id_start,
age_group_id_end, value_columns, error)` (validation/raw.py, lines
1821-1878): expected age groups absent from the data raise (or warn when
`error` is off); extra age groups with non-zero values warn; expected-age
rows with no non-missing, non-zero values raise when `error` is on and
warn otherwise. -/
def check_age_restrictions (ageOrder : List ℕ) (data : List DRow)
    (age_group_id_start age_group_id_end : Option ℕ) (error : Bool) : PyResult :=
  let expected := get_restriction_age_ids ageOrder age_group_id_start age_group_id_end
  let dataAges := data.map DRow.age_group_id
  let missing := expected.filter (fun a => !(dataAges.contains a))
  let extra := dataAges.filter (fun a => !(expected.contains a))
  if !missing.isEmpty && error then
    ⟨[], some (.dataAbnormal
      "Data was expected to contain all age groups in the restriction range but was missing some.")⟩
  else
    let w1 : List String :=
      if !missing.isEmpty then
        ["Data was expected to contain all age groups in the restriction range but was missing some."]
      else []
    let w2 : List String :=
      if !extra.isEmpty
          && check_data_exist (data.filter fun r => extra.contains r.age_group_id) true then
        ["Data was only expected to contain values for age groups in the restriction range but also included values for extra age groups."]
      else []
    if !check_data_exist (data.filter fun r => expected.contains r.age_group_id) true then
      if error then ⟨w1 ++ w2, some (.dataAbnormal allMissingMsg)⟩
      else ⟨w1 ++ w2 ++ [allMissingMsg], none⟩
    else ⟨w1 ++ w2, none⟩

/-- A one-row table whose only expected-age row is all zero. -/
def ageRestrictionExample : List DRow :=
  [⟨SEXES_Male, 2, [some 0]⟩]

/-- C3 counterexample: the "missing for all age groups within restriction
range" condition holds at this input (the expected-age rows are all
zero), the `error` flag is `False`, and `check_age_restrictions` raises
nothing — the source warns instead (validation/raw.py, lines 1872-1878),
so the claimed unconditional `DataAbnormalError` does not happen. -/
theorem check_age_restrictions_all_missing_error_false_no_raise :
    check_data_exist (ageRestrictionExample.filter fun r =>
        (get_restriction_age_ids [2, 3] (some 2) (some 2)).contains r.age_group_id) true = false
      ∧ (check_age_restrictions [2, 3] ageRestrictionExample (some 2) (some 2) false).error
          = none := by
  decide

/-- C3 amended: when the rows whose `age_group_id` lies in the
restriction-derived expected age set contain no non-missing, non-zero
values, `check_age_restrictions` raises `DataAbnormalError` if its
`error` flag is `True`, and only emits the "missing for all age groups
within restriction range" warning when the flag is `False`. -/
theorem check_age_restrictions_all_missing_spec (ageOrder : List ℕ) (data : List DRow)
    (s0 e0 : Option ℕ)
    (h : ¬ hasRealData data
      (fun r => (get_restriction_age_ids ageOrder s0 e0).contains r.age_group_id)) :
    (check_age_restrictions ageOrder data s0 e0 true).error.isSome = true
      ∧ (check_age_restrictions ageOrder data s0 e0 false).error = none
      ∧ allMissingMsg ∈ (check_age_restrictions ageOrder data s0 e0 false).warnings := by
  rw [← check_data_exist_filter_iff data] at h
  have hc : check_data_exist (data.filter fun r =>
      (get_restriction_age_ids ageOrder s0 e0).contains r.age_group_id) true = false :=
    Bool.eq_false_iff.mpr h
  unfold check_age_restrictions
  cases hm : ((get_restriction_age_ids ageOrder s0 e0).filter
      (fun a => !((data.map DRow.age_group_id).contains a))).isEmpty <;>
    simp only [hm, hc, Bool.not_true, Bool.not_false, Bool.false_and, Bool.true_and,
      Bool.and_true, Bool.and_false, Bool.false_eq_true, if_false, if_true,
      Option.isSome_some, List.mem_append, List.mem_singleton] <;>
    simp

/-- Witness for `check_age_restrictions_all_missing_spec` at the concrete
input of the counterexample. -/
theorem check_age_restrictions_all_missing_spec_witness :
    (check_age_restrictions [2, 3] ageRestrictionExample (some 2) (some 2) true).error.isSome
        = true
      ∧ (check_age_restrictions [2, 3] ageRestrictionExample (some 2) (some 2) false).error
          = none
      ∧ allMissingMsg
          ∈ (check_age_restrictions [2, 3] ageRestrictionExample (some 2) (some 2)
              false).warnings :=
  check_age_restrictions_all_missing_spec [2, 3] ageRestrictionExample (some 2) (some 2)
    (by unfold hasRealData; decide)

/-- A row of relative-risk data restricted to its mortality/morbidity
flag columns (pandas int columns, hence `ℤ`). -/
structure MMRow where
  morbidity : ℤ
  mortality : ℤ
  deriving DecidableEq, Repr

/-- Embeds `check_mort_morb_flags(data, yld_only, yll_only)`
(validation/raw.py, lines 1403-1458): first each flag column must take
values in 0/1 (`set(data[m]).issubset({0, 1})`); then the elif-cascade
over the flag aggregates `no_morbidity`, `no_mortality`, `morbidity`
(`≠ 0`), `mortality` (`≠ 0`) raises on both-flags-0 rows, on mixtures of
both-flags-1 and single-flag rows, and on single-flag configurations
inconsistent with the cause's yld/yll restriction. -/
def check_mort_morb_flags (data : List MMRow) (yld_only yll_only : Bool) :
    Except VError Unit :=
  if ¬ ∀ r ∈ data, r.morbidity = 0 ∨ r.morbidity = 1 then
    .error (.dataAbnormal "Data contains values for morbidity outside the expected 0 and 1.")
  else if ¬ ∀ r ∈ data, r.mortality = 0 ∨ r.mortality = 1 then
    .error (.dataAbnormal "Data contains values for mortality outside the expected 0 and 1.")
  else if ∃ r ∈ data, r.morbidity = 0 ∧ r.mortality = 0 then
    .error (.dataAbnormal
      "Relative risk data includes rows with both mortality and morbidity flags set to 0.")
  else if ∃ r ∈ data, r.morbidity ≠ 0 ∧ r.mortality ≠ 0 then
    if (∃ r ∈ data, r.morbidity = 0) ∨ (∃ r ∈ data, r.mortality = 0) then
      .error (.dataAbnormal
        "Relative risk data includes rows with both mortality and morbidity flags set to 1 as well as rows with only one of the mortality or morbidity flags set to 1.")
    else .ok ()
  else
    if (∃ r ∈ data, r.morbidity ≠ 0) ∧ (∀ r ∈ data, r.mortality = 0) ∧ yld_only = false then
      .error (.dataAbnormal
        "Relative risk data includes only rows with the morbidity flag set to 1 but the affected entity is not restricted to yld_only.")
    else if (∃ r ∈ data, r.mortality ≠ 0) ∧ (∀ r ∈ data, r.morbidity = 0)
        ∧ yll_only = false then
      .error (.dataAbnormal
        "Relative risk data includes only rows with the mortality flag set to 1 but the affected entity is not restricted to yll_only.")
    else if (∃ r ∈ data, r.mortality ≠ 0) ∧ (∃ r ∈ data, r.morbidity ≠ 0)
        ∧ (yld_only = true ∨ yll_only = true) then
      .error (.dataAbnormal
        "Relative risk data includes rows for both morbidity and mortality, but the affected entity is restricted to a single measure.")
    else .ok ()

/-- The claimed raise condition for `check_mort_morb_flags`: a flag value
outside 0/1, a both-flags-0 row, both-flags-1 rows coexisting with
single-flag rows, only-morbidity rows without `yld_only`, only-mortality
rows without `yll_only`, or both single-flag kinds under a yld/yll
restriction. -/
def mortMorbViolation (data : List MMRow) (yld_only yll_only : Bool) : Prop :=
  (∃ r ∈ data, r.morbidity ≠ 0 ∧ r.morbidity ≠ 1)
  ∨ (∃ r ∈ data, r.mortality ≠ 0 ∧ r.mortality ≠ 1)
  ∨ (∃ r ∈ data, r.morbidity = 0 ∧ r.mortality = 0)
  ∨ ((∃ r ∈ data, r.morbidity = 1 ∧ r.mortality = 1)
      ∧ ∃ r ∈ data, (r.morbidity = 1 ∧ r.mortality = 0) ∨ (r.morbidity = 0 ∧ r.mortality = 1))
  ∨ (data ≠ [] ∧ (∀ r ∈ data, r.morbidity = 1 ∧ r.mortality = 0) ∧ yld_only = false)
  ∨ (data ≠ [] ∧ (∀ r ∈ data, r.morbidity = 0 ∧ r.mortality = 1) ∧ yll_only = false)
  ∨ ((∃ r ∈ data, r.morbidity = 1 ∧ r.mortality = 0)
      ∧ (∃ r ∈ data, r.morbidity = 0 ∧ r.mortality = 1) ∧ (yld_only = true ∨ yll_only = true))

/-- C5: `check_mort_morb_flags(data, yld_only, yll_only)` raises
`DataAbnormalError` exactly when one of the claimed flag violations
holds: a flag value outside 0/1, a row with both flags 0, both-flags-1
rows coexisting with single-flag rows, only-morbidity rows while the
cause is not `yld_only`, only-mortality rows while the cause is not
`yll_only`, or both single-flag kinds while the cause is restricted; and
it returns normally otherwise. -/
theorem check_mort_morb_flags_iff (data : List MMRow) (yld_only yll_only : Bool) :
    (∃ m, check_mort_morb_flags data yld_only yll_only = .error (.dataAbnormal m)) ↔
      mortMorbViolation data yld_only yll_only := by
  unfold check_mort_morb_flags mortMorbViolation
  split_ifs with h1 h2 h3 h4 h5 h6 h7 h8 <;> simp_all
  · rcases h4 with ⟨r, hr, hmorb, hmort⟩
    have hm1 : r.morbidity = 1 := (h1 r hr).resolve_left hmorb
    have hm2 : r.mortality = 1 := (h2 r hr).resolve_left hmort
    refine Or.inr (Or.inr (Or.inr (Or.inl ⟨⟨r, hr, hm1, hm2⟩, ?_⟩)))
    rcases h5 with ⟨r0, hr0, h0⟩ | ⟨r0, hr0, h0⟩
    · exact ⟨r0, hr0, Or.inr ⟨h0, (h2 r0 hr0).resolve_left (h3 r0 hr0 h0)⟩⟩
    · have hne : ¬ r0.morbidity = 0 := fun hc => (h3 r0 hr0 hc) h0
      exact ⟨r0, hr0, Or.inl ⟨(h1 r0 hr0).resolve_left hne, h0⟩⟩
  · rcases h4 with ⟨r, hr, -⟩
    exact ⟨fun _ hn => absurd hr (hn r), fun _ hn => absurd hr (hn r)⟩
  · rcases h6.1 with ⟨r, hr, -⟩
    exact Or.inr (Or.inr (Or.inr (Or.inr (Or.inl (List.ne_nil_of_mem hr)))))
  · rcases h7.1 with ⟨r, hr, -⟩
    exact Or.inr (Or.inr (Or.inr (Or.inr (Or.inr (Or.inl (List.ne_nil_of_mem hr))))))
  · rcases h8 with ⟨⟨r0, hr0, h0⟩, ⟨r1, hr1, hm1⟩, hrest⟩
    refine Or.inr (Or.inr (Or.inr (Or.inr (Or.inr (Or.inr
      ⟨⟨r1, hr1, ?_, ?_⟩, r0, hr0, ?_, ?_⟩)))))
    · exact (h1 r1 hr1).resolve_left hm1
    · exact h4 r1 hr1 hm1
    · by_contra hc
      exact h0 (h4 r0 hr0 hc)
    · exact (h2 r0 hr0).resolve_left h0
  · refine ⟨?_, ?_, ?_, ?_, ?_⟩
    · exact fun x hx hne => (h1 x hx).resolve_left hne
    · exact fun x hx hne => (h2 x hx).resolve_left hne
    · intro hne hall
      rcases List.exists_mem_of_ne_nil data hne with ⟨r, hr⟩
      exact h6 r hr (by simp [(hall r hr).1]) (fun x hx => (hall x hx).2)
    · intro hne hall
      rcases List.exists_mem_of_ne_nil data hne with ⟨r, hr⟩
      exact h7 r hr (by simp [(hall r hr).2]) (fun x hx => (hall x hx).1)
    · intro x hx hx1 y hy hy0 hy1
      exact h8 y hy (by simp [hy1]) x hx (by simp [hx1])

/-- A row of population-attributable-fraction data with its identifier
columns (`metric_id`, `measure_id`, `rei_id`, `cause_id` plus the
demographic columns) and draw columns. -/
structure PafRow where
  metric_id : ℕ
  measure_id : ℕ
  rei_id : ℕ
  cause_id : ℕ
  location_id : ℕ
  year_id : ℕ
  age_group_id : ℕ
  sex_id : ℕ
  draws : List ℚ
  deriving DecidableEq, Repr

/-- The slice of cause metadata consulted by the PAF yld/yll restriction
checks: a gbd id and the two restriction flags (never both true). -/
structure CauseRef where
  gbd_id : ℕ
  yld_only : Bool
  yll_only : Bool
  deriving DecidableEq, Repr

/-- Modelled from the spec: the GBD measure id code `MEASURES[YLLs]`
(globals.py is not under src/); only its distinctness from the YLD code
matters to the claims. -/
def MEASURES_YLLs : ℕ := 4

/-- Modelled from the spec: the GBD measure id code `MEASURES[YLDs]`
(see `MEASURES_YLLs`). -/
def MEASURES_YLDs : ℕ := 3

/-- Truthiness of a row for `np.any` over a sliced frame containing all
columns: some entry is non-zero. -/
def pafRowTruthy (r : PafRow) : Bool :=
  r.metric_id != 0 || r.measure_id != 0 || r.rei_id != 0 || r.cause_id != 0
    || r.location_id != 0 || r.year_id != 0 || r.age_group_id != 0 || r.sex_id != 0
    || r.draws.any (fun d => d != 0)

/-- `np.any(data[(data.cause_id == c) & (data.measure_id == m)])`. -/
def npAnyPafSlice (data : List PafRow) (c m : ℕ) : Bool :=
  (data.filter fun r => r.cause_id == c && r.measure_id == m).any pafRowTruthy

/-- The loop body of the yld/yll restriction check of
`validate_population_attributable_fraction` (validation/raw.py, lines
1006-1013): for each cause id, raise when a `yld_only` cause carries YLL
rows or a `yll_only` cause carries YLD rows.  A missing cause id would be
an `IndexError` from `[c for c in causes ...][0]`. -/
def paf_restriction_loop (causesL : List CauseRef) (data : List PafRow) :
    List ℕ → Except VError Unit
  | [] => .ok ()
  | c :: rest =>
    match causesL.find? (fun x => x.gbd_id == c) with
    | none => .error (.pyValueError "IndexError: list index out of range")
    | some cause =>
      if cause.yld_only && npAnyPafSlice data c MEASURES_YLLs then
        .error (.dataAbnormal
          "Paf data contains yll values despite the affected entity being restricted to yld only.")
      else if cause.yll_only && npAnyPafSlice data c MEASURES_YLDs then
        .error (.dataAbnormal
          "Paf data contains yld values despite the affected entity being restricted to yll only.")
      else paf_restriction_loop causesL data rest

/-- Embeds the `for c_id in set(data.cause_id)` yld/yll restriction check
of `validate_population_attributable_fraction`. -/
def paf_restriction_check (causesL : List CauseRef) (data : List PafRow) :
    Except VError Unit :=
  paf_restriction_loop causesL data (pdUnique (data.map PafRow.cause_id))

/-- The loop body of the yld/yll restriction check of
`validate_etiology_population_attributable_fraction` (validation/raw.py,
lines 1075-1082).  In the source the `yld_only` branch constructs its
`DataAbnormalError` without a `raise` statement (line 1078), so that
branch has no effect; only the `yll_only` branch raises. -/
def etiology_paf_restriction_loop (causesL : List CauseRef) (data : List PafRow) :
    List ℕ → Except VError Unit
  | [] => .ok ()
  | c :: rest =>
    match causesL.find? (fun x => x.gbd_id == c) with
    | none => .error (.pyValueError "IndexError: list index out of range")
    | some cause =>
      if cause.yll_only && npAnyPafSlice data c MEASURES_YLDs then
        .error (.dataAbnormal
          "Paf data contains yld values despite the affected entity being restricted to yll only.")
      else etiology_paf_restriction_loop causesL data rest

/-- Embeds the `for c_id in data.cause_id` yld/yll restriction check of
`validate_etiology_population_attributable_fraction`. -/
def etiology_paf_restriction_check (causesL : List CauseRef) (data : List PafRow) :
    Except VError Unit :=
  etiology_paf_restriction_loop causesL data (data.map PafRow.cause_id)

/-- A yld-only cause. -/
def pafExampleCause : CauseRef := ⟨302, true, false⟩

/-- A PAF row for cause 302 carrying the YLLs measure id. -/
def pafExampleRow : PafRow := ⟨2, MEASURES_YLLs, 83, 302, 163, 1990, 10, 2, [1/2]⟩

/-- C2: yld/yll-restricted causes must not carry PAF data for the
excluded measure type.  `validate_population_attributable_fraction`
enforces both directions, but in
`validate_etiology_population_attributable_fraction` the `yld_only`
branch builds its `DataAbnormalError` without raising it
(validation/raw.py, line 1078), so etiology PAF data for a `yld_only`
cause carrying YLLs rows passes silently while the risk-factor validator
raises on the same configuration. -/
theorem etiology_paf_yld_restriction_not_enforced :
    pafExampleCause.yld_only = true
      ∧ pafExampleRow.measure_id = MEASURES_YLLs
      ∧ etiology_paf_restriction_check [pafExampleCause] [pafExampleRow] = .ok ()
      ∧ paf_restriction_check [pafExampleCause] [pafExampleRow]
          = .error (.dataAbnormal
            "Paf data contains yll values despite the affected entity being restricted to yld only.") := by
  decide

/-- The metadata slice consulted by `check_exists_in_range`: the nullable
`{measure}_exists` flag, whether `{measure}_in_range` is among the
entity's slots, and the truthiness of that slot's value. -/
structure EntityMeta where
  exists_flag : Option Bool
  in_range_in_slots : Bool
  in_range_truthy : Bool
  deriving DecidableEq, Repr

/-- Embeds `check_exists_in_range(entity, measure)` (validation/raw.py,
lines 1318-1347): raises `InvalidQueryError` when the exists flag is
`None`; otherwise warns when the flag is falsy, and additionally warns
when an in-range slot exists, the exists flag is truthy, and the
in-range value is falsy. -/
def check_exists_in_range (e : EntityMeta) : Except VError (List String) :=
  match e.exists_flag with
  | none => .error (.invalidQuery "Data is not expected to exist for the entity and measure.")
  | some ex =>
    let w1 : List String :=
      if ex = false then ["Data for the entity and measure may not exist for all locations."]
      else []
    let w2 : List String :=
      if e.in_range_in_slots && ex && !e.in_range_truthy then
        ["Data for the entity and measure may be outside the normal range."]
      else []
    .ok (w1 ++ w2)

/-- C9: for every entity/measure pair reaching `check_exists_in_range`
from `check_metadata`'s entity-kind branches, an unset (`None`)
`{measure}_exists` flag raises `InvalidQueryError`, and a set flag never
raises — the exists/in-range checks then return normally with at most
warnings. -/
theorem check_exists_in_range_spec (e : EntityMeta) :
    ((∃ m, check_exists_in_range e = .error (.invalidQuery m)) ↔ e.exists_flag = none)
      ∧ ((∃ ws, check_exists_in_range e = .ok ws) ↔ e.exists_flag ≠ none) := by
  cases h : e.exists_flag <;> simp [check_exists_in_range, h]

/-- A row of birth prevalence data, as far as the birth-age-group check
is concerned. -/
structure BPRow where
  age_group_id : ℕ
  draws : List ℚ
  deriving DecidableEq, Repr

/-- Outcome of a check run under Python semantics: normal return, a
raised `DataAbnormalError`, or a `ValueError` coming from numpy
truthiness — the latter outside the documented error taxonomy. -/
inductive PyOutcome where
  | ok
  | dataAbnormal (msg : String)
  | pyValueError (msg : String)
  deriving DecidableEq, Repr

/-- The message of the birth-age-group `DataAbnormalError`. -/
def birthAgeMsg : String :=
  "Birth prevalence data includes age groups beyond the expected birth age group (id 164)."

/-- Embeds the birth-age-group check of `validate_birth_prevalence`
(validation/raw.py, lines 503-506), `if data.age_group_id.unique() != 164:`,
under numpy truthiness: `unique()` yields the distinct ids in order of
first appearance, `!= 164` compares elementwise, and `bool(...)` of the
resulting array is the single element for length one, `False` for length
zero, and raises `ValueError` ("truth value of an array with more than
one element is ambiguous") for length two or more. -/
def birth_prevalence_age_check (data : List BPRow) : PyOutcome :=
  match pdUnique (data.map BPRow.age_group_id) with
  | [] => .ok
  | [a] => if a ≠ 164 then .dataAbnormal birthAgeMsg else .ok
  | _ :: _ :: _ => .pyValueError
      "The truth value of an array with more than one element is ambiguous."

theorem pdUnique_all_eq {α : Type} [DecidableEq α] (l : List α) (a : α)
    (h : ∀ x ∈ l, x = a) (hne : l ≠ []) : pdUnique l = [a] := by
  have hmema : a ∈ pdUnique l := by
    rcases List.exists_mem_of_ne_nil l hne with ⟨x, hx⟩
    exact (mem_pdUnique l a).mpr ((h x hx) ▸ hx)
  have hnd := nodup_pdUnique l
  cases hu : pdUnique l with
  | nil =>
    rw [hu] at hmema
    exact absurd hmema (List.not_mem_nil a)
  | cons x t =>
    have hxa : x = a := h x ((mem_pdUnique l x).mp (by rw [hu]; exact List.mem_cons_self x t))
    cases t with
    | nil => rw [hxa]
    | cons y t2 =>
      have hya : y = a := h y ((mem_pdUnique l y).mp (by rw [hu]; simp))
      rw [hu, hxa, hya] at hnd
      simp at hnd

/-- C10: the birth-age-group check of `validate_birth_prevalence` is
well-defined only for a single distinct `age_group_id`: with two or more
distinct ids the comparison's truth value is ambiguous and the validator
fails with a `ValueError` outside the documented error taxonomy, while
with a single distinct id it raises `DataAbnormalError` exactly when that
id is not the birth age group 164. -/
theorem birth_prevalence_age_check_spec (data : List BPRow) :
    ((∃ r1 ∈ data, ∃ r2 ∈ data, r1.age_group_id ≠ r2.age_group_id) →
        ∃ m, birth_prevalence_age_check data = .pyValueError m)
      ∧ (∀ a : ℕ, (∀ r ∈ data, r.age_group_id = a) → data ≠ [] →
        birth_prevalence_age_check data
          = if a = 164 then .ok else .dataAbnormal birthAgeMsg) := by
  constructor
  · rintro ⟨r1, hr1, r2, hr2, hne⟩
    have h1 : r1.age_group_id ∈ pdUnique (data.map BPRow.age_group_id) :=
      (mem_pdUnique _ _).mpr (List.mem_map_of_mem _ hr1)
    have h2 : r2.age_group_id ∈ pdUnique (data.map BPRow.age_group_id) :=
      (mem_pdUnique _ _).mpr (List.mem_map_of_mem _ hr2)
    unfold birth_prevalence_age_check
    cases hu : pdUnique (data.map BPRow.age_group_id) with
    | nil =>
      rw [hu] at h1
      exact absurd h1 (List.not_mem_nil _)
    | cons x t =>
      cases t with
      | nil =>
        rw [hu] at h1 h2
        simp at h1 h2
        exact absurd (h1.trans h2.symm) hne
      | cons y t2 => exact ⟨_, rfl⟩
  · intro a hall hne
    have hmap : ∀ x ∈ data.map BPRow.age_group_id, x = a := by
      intro x hx
      rcases List.mem_map.mp hx with ⟨r, hr, rfl⟩
      exact hall r hr
    have hmne : data.map BPRow.age_group_id ≠ [] := by
      simpa using hne
    unfold birth_prevalence_age_check
    rw [pdUnique_all_eq _ a hmap hmne]
    by_cases ha : a = 164 <;> simp [ha]

/-- Witness for `birth_prevalence_age_check_spec`: a table with two
distinct age group ids yields the ambiguous-truth `ValueError`, and a
single-id table with id 10 yields the `DataAbnormalError`. -/
theorem birth_prevalence_age_check_spec_witness :
    (∃ m, birth_prevalence_age_check [⟨164, [1]⟩, ⟨10, [1]⟩] = .pyValueError m)
      ∧ birth_prevalence_age_check [⟨10, [1]⟩]
          = .dataAbnormal birthAgeMsg := by
  constructor
  · exact (birth_prevalence_age_check_spec [⟨164, [1]⟩, ⟨10, [1]⟩]).1
      ⟨⟨164, [1]⟩, by decide, ⟨10, [1]⟩, by decide, by decide⟩
  · have h := (birth_prevalence_age_check_spec [⟨10, [1]⟩]).2 10
      (by decide) (by decide)
    simpa using h

/-- A row of exposure data: the four demographic id columns (the
`DEMOGRAPHIC_COLUMNS` of globals.py), the category `parameter`, and the
draw columns. -/
structure ExpRow where
  location_id : ℕ
  year_id : ℕ
  age_group_id : ℕ
  sex_id : ℕ
  parameter : String
  draws : List ℚ
  deriving DecidableEq, Repr

/-- The groupby key of `data.groupby(DEMOGRAPHIC_COLUMNS)`. -/
def demoKey (r : ExpRow) : ℕ × ℕ × ℕ × ℕ :=
  (r.location_id, r.year_id, r.age_group_id, r.sex_id)

/-- The distinct demographic groups of the table. -/
def uniqueKeys (data : List ExpRow) : List (ℕ × ℕ × ℕ × ℕ) :=
  pdUnique (data.map demoKey)

/-- The rows of one demographic group. -/
def groupRows (data : List ExpRow) (k : ℕ × ℕ × ℕ × ℕ) : List ExpRow :=
  data.filter (fun r => demoKey r == k)

/-- The groupby sum of draw column `j`. -/
def colSum (rows : List ExpRow) (j : ℕ) : ℚ :=
  (rows.map (fun r => r.draws.getD j 0)).sum

/-- The default relative tolerance of `np.allclose`. -/
def RTOL : ℚ := 1 / 100000

/-- The default absolute tolerance of `np.allclose`. -/
def ATOL : ℚ := 1 / 100000000

/-- One entry of `np.allclose(g, 1.0)`: closeness of a group sum to 1
within `atol + rtol * 1`. -/
def closeToOne (x : ℚ) : Bool :=
  |x - 1| ≤ ATOL + RTOL

/-- The distribution tags `validate_exposure` treats as categorical. -/
def CATEGORICAL_DISTRIBUTIONS : List String :=
  ["dichotomous", "ordered_polytomous", "unordered_polytomous"]

/-- Embeds the categorical sum-to-one check of `validate_exposure`
(validation/raw.py, lines 730-739): for a categorical distribution, the
draw-column sums of `data.groupby(DEMOGRAPHIC_COLUMNS)[DRAW_COLUMNS].sum()`
must all satisfy `np.allclose(g, 1.0)`, else `DataAbnormalError` is
raised.  `nDraws` is the number of draw columns (1000 in the source). -/
def exposure_sum_to_one_check (distribution : String) (nDraws : ℕ) (data : List ExpRow) :
    Except VError Unit :=
  if distribution ∈ CATEGORICAL_DISTRIBUTIONS then
    if (uniqueKeys data).all (fun k =>
        (List.range nDraws).all (fun j => closeToOne (colSum (groupRows data k) j))) then
      .ok ()
    else
      .error (.dataAbnormal "Exposure data does not sum to 1 across all categories.")
  else .ok ()

/-- C7: for an entity with a categorical distribution, the exposure
validator raises `DataAbnormalError` exactly when some demographic
group's category rows have a draw-column sum that is not 1 within the
`np.allclose` tolerance; when every group sums to 1 in every draw
column, this check passes. -/
theorem validate_exposure_categorical_sum_spec (distribution : String) (nDraws : ℕ)
    (data : List ExpRow) (hcat : distribution ∈ CATEGORICAL_DISTRIBUTIONS) :
    (∃ m, exposure_sum_to_one_check distribution nDraws data = .error (.dataAbnormal m)) ↔
      ∃ r ∈ data, ∃ j < nDraws,
        ¬ |colSum (groupRows data (demoKey r)) j - 1| ≤ ATOL + RTOL := by
  unfold exposure_sum_to_one_check
  rw [if_pos hcat]
  by_cases hall : (uniqueKeys data).all (fun k =>
      (List.range nDraws).all (fun j => closeToOne (colSum (groupRows data k) j))) = true
  · rw [if_pos hall]
    simp only [List.all_eq_true, List.mem_range, closeToOne, decide_eq_true_eq] at hall
    simp only [reduceCtorEq, exists_false, false_iff]
    rintro ⟨r, hr, j, hj, hfar⟩
    exact hfar (hall (demoKey r) ((mem_pdUnique _ _).mpr (List.mem_map_of_mem _ hr)) j hj)
  · rw [if_neg hall]
    simp only [Except.error.injEq, VError.dataAbnormal.injEq, exists_eq', true_iff]
    have hex : ∃ k ∈ uniqueKeys data, ∃ j ∈ List.range nDraws,
        ¬ |colSum (groupRows data k) j - 1| ≤ ATOL + RTOL := by
      by_contra hc
      push_neg at hc
      apply hall
      simp only [List.all_eq_true, closeToOne]
      intro k hk j hj
      exact decide_eq_true (hc k hk j hj)
    rcases hex with ⟨k, hk, j, hj, hfar⟩
    rcases List.mem_map.mp ((mem_pdUnique _ _).mp hk) with ⟨r, hr, rfl⟩
    exact ⟨r, hr, j, List.mem_range.mp hj, hfar⟩

/-- Witness for `validate_exposure_categorical_sum_spec`: a dichotomous
table with a single demographic group summing to 9/10 makes the check
raise. -/
theorem validate_exposure_categorical_sum_spec_witness :
    ∃ m, exposure_sum_to_one_check "dichotomous" 1
        [⟨163, 1990, 10, 1, "cat1", [9/10]⟩] = .error (.dataAbnormal m) :=
  (validate_exposure_categorical_sum_spec "dichotomous" 1
      [⟨163, 1990, 10, 1, "cat1", [9/10]⟩] (by decide)).mpr
    ⟨⟨163, 1990, 10, 1, "cat1", [9/10]⟩, List.mem_singleton.mpr rfl, 0, Nat.zero_lt_one, by
      show ¬ |colSum (groupRows [⟨163, 1990, 10, 1, "cat1", [9/10]⟩]
          (demoKey ⟨163, 1990, 10, 1, "cat1", [9/10]⟩)) 0 - 1| ≤ ATOL + RTOL
      have hg : colSum (groupRows [(⟨163, 1990, 10, 1, "cat1", [9/10]⟩ : ExpRow)]
          (demoKey ⟨163, 1990, 10, 1, "cat1", [9/10]⟩)) 0 = 9/10 := by
        simp [colSum, groupRows, demoKey]
      rw [hg, show ((9:ℚ)/10) - 1 = -(1/10) by norm_num, abs_neg,
        abs_of_nonneg (by norm_num : (0:ℚ) ≤ 1/10)]
      norm_num [ATOL, RTOL]⟩

end VivariumInputs
